import Mathlib

/-!
# Verification of the SURYA AI chatbot backend's session-and-attachment lifecycle

Shallow embedding of the three backend variants found in the repository:

* `server.js` — the standalone Express server (validates the prompt before
  resolving the chat session; its `deleteGeminiFile` deletes by the raw token);
* `Netlify/functions/api.js` — the Express app wrapped with serverless-http
  (resolves the chat session before validating the prompt; its
  `deleteGeminiFile` looks the token up in the map first);
* the standalone Netlify handler (`api.js`, the unnamed source file) — same
  chat/upload logic as the wrapped Express variant, but when the API key is
  missing it replaces the whole handler with a fixed 500 response.

The remote inference provider (Google Gemini) is external; its calls are
modelled by explicit parameters: the outcome of `ai.files.upload` is an
`Option GeminiFile`, the outcome of `chatSession.sendMessage` an
`Option String`, and the outcome of `ai.files.delete` a `String → Bool`
predicate on handles.  JavaScript string truthiness (`!s`) is modelled by
comparison with `""`, and an absent request field by `Option`/`""`.

State-mutating handlers pass a `ServerState` explicitly.  The state carries,
besides the two module-level maps (`chatSessions`, `uploadedFilesMap`), ghost
trace fields recording outbound provider calls (`createCalls`, `sendCalls`,
`provDeleteCalls`) and invocations of the consume helper (`consumeCalls`);
these fields only ever accumulate and never influence control flow.
-/

namespace SuryaAI

/-- A Gemini file object, as returned by the provider's `ai.files.upload`:
`name` is the provider-assigned handle (used by the backends as the file
token), `displayName` and `mimeType` the metadata echoed by the service. -/
structure GeminiFile where
  name : String
  displayName : String
  mimeType : String
deriving DecidableEq, Repr

/-- One element of the `contents` array handed to `sendMessage`: either a
stored Gemini file object or plain prompt text. -/
inductive ContentPart where
  | file (f : GeminiFile)
  | text (s : String)
deriving DecidableEq, Repr

/-- A conversation context created by `ai.chats.create`.  `ctxId` is a ghost
identifier distinguishing distinct provider-side contexts (each creation call
yields a fresh one); `model` and `systemInstruction` are the fixed arguments
the backends pass. -/
structure ChatSession where
  ctxId : Nat
  model : String
  systemInstruction : String
deriving DecidableEq, Repr

/-- Association-list lookup, modelling `m.get(k)` / `m[k]` on the JavaScript
`Map` / plain object (at most one binding per key is ever stored). -/
def mapFind {α : Type} (m : List (String × α)) (k : String) : Option α :=
  match m with
  | [] => none
  | (k', v) :: rest => if k' = k then some v else mapFind rest k

/-- Association-list insertion, modelling `m.set(k, v)` / `m[k] = v`:
replaces the binding in place if the key is present, appends otherwise. -/
def mapInsert {α : Type} (m : List (String × α)) (k : String) (v : α) :
    List (String × α) :=
  match m with
  | [] => [(k, v)]
  | (k', v') :: rest =>
      if k' = k then (k, v) :: rest else (k', v') :: mapInsert rest k v

/-- Association-list removal, modelling `m.delete(k)` / `delete m[k]`. -/
def mapErase {α : Type} (m : List (String × α)) (k : String) :
    List (String × α) :=
  match m with
  | [] => []
  | (k', v') :: rest =>
      if k' = k then mapErase rest k else (k', v') :: mapErase rest k

/-- The fixed session identifier (`SESSION_ID`) shared by all three variants. -/
def SESSION_ID : String := "default-it-user"

/-- The fixed system instruction (`SYSTEM_PROMPT`), identical in all variants. -/
def SYSTEM_PROMPT : String :=
  "You are an experienced software developer and IT architect. Your responses must be highly professional, accurate, and technical. Use Markdown formatting heavily to structure complex information (code blocks, lists, headers)."

/-- Module-level mutable state of one backend process, plus ghost traces of
outbound provider calls.  `chatSessions` is the Conversation Registry,
`uploadedFilesMap` the Attachment Broker map; `nextCtxId` feeds fresh
provider-context identifiers; `createCalls` counts `ai.chats.create` calls,
`sendCalls` records each `sendMessage` payload, `provDeleteCalls` each handle
passed to `ai.files.delete`, and `consumeCalls` each token on which the
`deleteGeminiFile` helper was invoked. -/
structure ServerState where
  chatSessions : List (String × ChatSession)
  uploadedFilesMap : List (String × GeminiFile)
  nextCtxId : Nat
  createCalls : Nat
  sendCalls : List (List ContentPart)
  provDeleteCalls : List String
  consumeCalls : List String
deriving DecidableEq, Repr

/-- The state of a freshly started process: both maps empty, no calls made. -/
def initState : ServerState :=
  { chatSessions := []
    uploadedFilesMap := []
    nextCtxId := 0
    createCalls := 0
    sendCalls := []
    provDeleteCalls := []
    consumeCalls := [] }

/-- `getChatSession(sessionId)` — identical in all three variants: if the
registry has no entry for `sessionId`, create a fresh context via
`ai.chats.create` (ghost-recorded in `createCalls`), store it and return it;
otherwise return the stored context without touching the provider. -/
def getChatSession (st : ServerState) (sessionId : String) :
    ChatSession × ServerState :=
  match mapFind st.chatSessions sessionId with
  | some chat => (chat, st)
  | none =>
      let newChat : ChatSession :=
        { ctxId := st.nextCtxId
          model := "gemini-2.5-flash"
          systemInstruction := SYSTEM_PROMPT }
      (newChat,
       { st with
          chatSessions := mapInsert st.chatSessions sessionId newChat
          nextCtxId := st.nextCtxId + 1
          createCalls := st.createCalls + 1 })

/-- `deleteGeminiFile(fileToken)`, `server.js` variant: inside a catch-all
`try`, call `ai.files.delete({name: fileToken})` with the raw token (always —
no map lookup first), and only if that call succeeds reach the
`delete uploadedFilesMap[fileToken]` line; a provider failure is caught and
logged, leaving the map entry in place.  The function itself never raises
(modelled by totality); the invocation is ghost-recorded in `consumeCalls`. -/
def deleteGeminiFile_server (provDelete : String → Bool) (st : ServerState)
    (fileToken : String) : ServerState :=
  let st := { st with
                consumeCalls := st.consumeCalls ++ [fileToken]
                provDeleteCalls := st.provDeleteCalls ++ [fileToken] }
  if provDelete fileToken then
    { st with uploadedFilesMap := mapErase st.uploadedFilesMap fileToken }
  else
    st

/-- `deleteGeminiFile(fileToken)`, Netlify variants (`api.js` and the
standalone handler): look the token up in `uploadedFilesMap`; only when an
entry with a truthy `name` is found, call `ai.files.delete({name})`, and only
if that call succeeds reach the `delete uploadedFilesMap[fileToken]` line; a
provider failure is caught and logged, leaving the entry in place.  Never
raises; the invocation is ghost-recorded in `consumeCalls`. -/
def deleteGeminiFile_api (provDelete : String → Bool) (st : ServerState)
    (fileToken : String) : ServerState :=
  let st := { st with consumeCalls := st.consumeCalls ++ [fileToken] }
  match mapFind st.uploadedFilesMap fileToken with
  | none => st
  | some fileToDelete =>
      if fileToDelete.name = "" then st
      else
        let st := { st with
                      provDeleteCalls := st.provDeleteCalls ++ [fileToDelete.name] }
        if provDelete fileToDelete.name then
          { st with uploadedFilesMap := mapErase st.uploadedFilesMap fileToken }
        else
          st

/-- Outcome of an HTTP handler, tagged with the status code the code sends. -/
inductive HandlerResult where
  | ok (response : String)
  | badRequest (error : String)
  | serverError (error : String)
deriving DecidableEq, Repr

/-- The `/upload` handler, identical logic in all three variants: reject with
400 if any of `base64Data`, `mimeType`, `fileName` is falsy; otherwise call
`ai.files.upload` (outcome `provResp`: `some f` is the returned file object,
`none` a thrown provider error answered with 500); on success store the
returned object under its own `name` and answer with that token. -/
def postUpload (provResp : Option GeminiFile) (st : ServerState)
    (base64Data mimeType fileName : String) : HandlerResult × ServerState :=
  if base64Data = "" ∨ mimeType = "" ∨ fileName = "" then
    (.badRequest "Missing file data (base64, mimeType, or fileName).", st)
  else
    match provResp with
    | none => (.serverError "Gemini API Error during upload", st)
    | some uploadedFile =>
        (.ok uploadedFile.name,
         { st with
            uploadedFilesMap :=
              mapInsert st.uploadedFilesMap uploadedFile.name uploadedFile })

/-- Truthiness of an optional request field holding a string. -/
def strTruthy : Option String → Bool
  | none => false
  | some s => s ≠ ""

/-- The `contents` array a chat turn assembles: the looked-up file object (if
any) first, then the prompt text. -/
def chatContents (fileToDelete : Option GeminiFile) (prompt : String) :
    List ContentPart :=
  (match fileToDelete with
   | some f => [ContentPart.file f]
   | none => []) ++ [ContentPart.text prompt]

/-- The `/chat` handler of `server.js`: validate the prompt FIRST (400 on a
falsy prompt, with no other effect), then resolve the session via
`getChatSession()`, look up a truthy `fileToken` in the map, send
`[file?, prompt]` (outcome `sendResp`: `some text` is the reply, `none` a
thrown provider error).  On success, if a token was supplied and was found,
call `deleteGeminiFile` (server variant) before answering 200; on failure,
call it only if the token is still in the map, then answer 500. -/
def postChat_server (sendResp : Option String) (provDelete : String → Bool)
    (st : ServerState) (prompt : String) (fileToken : Option String) :
    HandlerResult × ServerState :=
  if prompt = "" then (.badRequest "Prompt is missing.", st)
  else
    let (_chatSession, st) := getChatSession st SESSION_ID
    let fileToDelete : Option GeminiFile :=
      match fileToken with
      | some t => if t ≠ "" then mapFind st.uploadedFilesMap t else none
      | none => none
    let contents := chatContents fileToDelete prompt
    let st := { st with sendCalls := st.sendCalls ++ [contents] }
    match sendResp with
    | some text =>
        let st :=
          match fileToken, fileToDelete with
          | some t, some _ =>
              if t ≠ "" then deleteGeminiFile_server provDelete st t else st
          | _, _ => st
        (.ok text, st)
    | none =>
        let st :=
          match fileToken with
          | some t =>
              if t ≠ "" then
                match mapFind st.uploadedFilesMap t with
                | some _ => deleteGeminiFile_server provDelete st t
                | none => st
              else st
          | none => st
        (.serverError "Gemini API Error during chat", st)

/-- The `/chat` handler of the Netlify variants (`api.js` and the standalone
handler's chat branch, which are line-for-line the same logic): resolve the
session via `getChatSession(SESSION_ID)` BEFORE validating the prompt, then
400 on a falsy prompt; otherwise identical to the `server.js` turn except that
cleanup uses the map-checking `deleteGeminiFile` variant. -/
def postChat_api (sendResp : Option String) (provDelete : String → Bool)
    (st : ServerState) (prompt : String) (fileToken : Option String) :
    HandlerResult × ServerState :=
  let (_chatSession, st) := getChatSession st SESSION_ID
  if prompt = "" then (.badRequest "Prompt is required.", st)
  else
    let fileToDelete : Option GeminiFile :=
      match fileToken with
      | some t => if t ≠ "" then mapFind st.uploadedFilesMap t else none
      | none => none
    let contents := chatContents fileToDelete prompt
    let st := { st with sendCalls := st.sendCalls ++ [contents] }
    match sendResp with
    | some text =>
        let st :=
          match fileToken, fileToDelete with
          | some t, some _ =>
              if t ≠ "" then deleteGeminiFile_api provDelete st t else st
          | _, _ => st
        (.ok text, st)
    | none =>
        let st :=
          match fileToken with
          | some t =>
              if t ≠ "" then
                match mapFind st.uploadedFilesMap t with
                | some _ => deleteGeminiFile_api provDelete st t
                | none => st
              else st
          | none => st
        (.serverError "Gemini API Error during chat", st)

/-- `server.js` at module level: a falsy `GEMINI_API_KEY` triggers
`process.exit(1)`, so the server never starts and no chat request is ever
served (`none`); with a key present, `/chat` behaves as `postChat_server`. -/
def serverModuleChat (apiKey : Option String) (sendResp : Option String)
    (provDelete : String → Bool) (st : ServerState) (prompt : String)
    (fileToken : Option String) : Option (HandlerResult × ServerState) :=
  if strTruthy apiKey then
    some (postChat_server sendResp provDelete st prompt fileToken)
  else
    none

/-- `Netlify/functions/api.js` at module level: a falsy `GEMINI_API_KEY` is
only logged (`process.exit` was removed); the routes are installed regardless,
so `/chat` behaves as `postChat_api` whether or not the key is present. -/
def apiModuleChat (_apiKey : Option String) (sendResp : Option String)
    (provDelete : String → Bool) (st : ServerState) (prompt : String)
    (fileToken : Option String) : Option (HandlerResult × ServerState) :=
  some (postChat_api sendResp provDelete st prompt fileToken)

/-- The standalone Netlify handler at module level: a falsy `GEMINI_API_KEY`
replaces the exported handler with one returning a fixed 500 misconfiguration
response for every request, before any provider client exists; with a key
present, the chat branch behaves as `postChat_api`. -/
def part000ModuleChat (apiKey : Option String) (sendResp : Option String)
    (provDelete : String → Bool) (st : ServerState) (prompt : String)
    (fileToken : Option String) : Option (HandlerResult × ServerState) :=
  if strTruthy apiKey then
    some (postChat_api sendResp provDelete st prompt fileToken)
  else
    some (.serverError
            "Gemini API Key missing in Netlify Environment Variables.", st)

/-- One public operation against a backend process: an upload request, or a
chat request served by the `server.js` handler or by the Netlify handlers
(whose chat logic coincides).  Provider outcomes travel with the operation.
Neither request shape carries a session identifier — the chat handlers read
none from the request body. -/
inductive Op where
  | upload (provResp : Option GeminiFile)
      (base64Data mimeType fileName : String)
  | chatServer (sendResp : Option String) (provDelete : String → Bool)
      (prompt : String) (fileToken : Option String)
  | chatApi (sendResp : Option String) (provDelete : String → Bool)
      (prompt : String) (fileToken : Option String)

/-- State transition of one public operation. -/
def applyOp (st : ServerState) : Op → ServerState
  | .upload r b m f => (postUpload r st b m f).2
  | .chatServer s d p t => (postChat_server s d st p t).2
  | .chatApi s d p t => (postChat_api s d st p t).2

/-- Run a sequence of public operations from a state. -/
def run (st : ServerState) : List Op → ServerState
  | [] => st
  | op :: ops => run (applyOp st op) ops

/-- The Conversation Registry is either empty or the single entry keyed by
the fixed session identifier. -/
def registryKeysDefault (st : ServerState) : Prop :=
  st.chatSessions = [] ∨ ∃ c, st.chatSessions = [(SESSION_ID, c)]

/-! ## Map lemmas -/

theorem mapFind_mapInsert_self {α : Type} (m : List (String × α)) (k : String)
    (v : α) : mapFind (mapInsert m k v) k = some v := by
  induction m with
  | nil => simp [mapInsert, mapFind]
  | cons hd tl ih =>
      obtain ⟨k', v'⟩ := hd
      by_cases h : k' = k
      · simp [mapInsert, mapFind, h]
      · simp [mapInsert, mapFind, h, ih]

theorem mapFind_mapErase_self {α : Type} (m : List (String × α)) (k : String) :
    mapFind (mapErase m k) k = none := by
  induction m with
  | nil => simp [mapErase, mapFind]
  | cons hd tl ih =>
      obtain ⟨k', v'⟩ := hd
      by_cases h : k' = k
      · simp [mapErase, h, ih]
      · simp [mapErase, mapFind, h, ih]

theorem mapErase_of_find_none {α : Type} (m : List (String × α)) (k : String)
    (h : mapFind m k = none) : mapErase m k = m := by
  induction m with
  | nil => simp [mapErase]
  | cons hd tl ih =>
      obtain ⟨k', v'⟩ := hd
      by_cases hk : k' = k
      · simp [mapFind, hk] at h
      · simp [mapFind, hk] at h
        simp [mapErase, hk, ih h]

/-! ## Field-preservation lemmas -/

theorem getChatSession_preserves (st : ServerState) (s : String) :
    (getChatSession st s).2.uploadedFilesMap = st.uploadedFilesMap ∧
    (getChatSession st s).2.consumeCalls = st.consumeCalls := by
  unfold getChatSession
  rcases h : mapFind st.chatSessions s with _ | c <;> simp [h]

theorem consumeCalls_deleteGeminiFile_server (d : String → Bool)
    (st : ServerState) (t : String) :
    (deleteGeminiFile_server d st t).consumeCalls = st.consumeCalls ++ [t] := by
  unfold deleteGeminiFile_server
  by_cases hd : d t <;> simp [hd]

theorem consumeCalls_deleteGeminiFile_api (d : String → Bool)
    (st : ServerState) (t : String) :
    (deleteGeminiFile_api d st t).consumeCalls = st.consumeCalls ++ [t] := by
  unfold deleteGeminiFile_api
  rcases h : mapFind st.uploadedFilesMap t with _ | f
  · simp [h]
  · by_cases hn : f.name = ""
    · simp [h, hn]
    · by_cases hd : d f.name <;> simp [h, hn, hd]

/-! ## Claims -/

/-- C5: for every session identifier `s` not yet registered, calling
`getChatSession` twice in sequence returns the same conversation-context
reference both times, the second call performs no provider call and no
registry mutation (the state is unchanged), and exactly one provider
context-creation call occurs across the two calls. -/
theorem C5_get_or_create_idempotent (st : ServerState) (s : String)
    (h : mapFind st.chatSessions s = none) :
    (getChatSession (getChatSession st s).2 s).1 = (getChatSession st s).1 ∧
    (getChatSession (getChatSession st s).2 s).2 = (getChatSession st s).2 ∧
    (getChatSession st s).2.createCalls = st.createCalls + 1 := by
  unfold getChatSession
  simp [h, mapFind_mapInsert_self]

/-- Witness for C5 at the fresh session identifier `"s1"` in the initial
state. -/
theorem C5_witness :
    mapFind initState.chatSessions "s1" = none ∧
    ((getChatSession (getChatSession initState "s1").2 "s1").1 =
        (getChatSession initState "s1").1 ∧
      (getChatSession (getChatSession initState "s1").2 "s1").2 =
        (getChatSession initState "s1").2 ∧
      (getChatSession initState "s1").2.createCalls =
        initState.createCalls + 1) :=
  ⟨rfl, C5_get_or_create_idempotent initState "s1" rfl⟩

/-- C6: for every valid upload (all three fields non-empty) on which the
provider's content-store call succeeds — the provider returning a file object
echoing the requested display name and MIME type, as the Gemini file service
does — `stage` answers with the returned token and an immediate `peek` with
that token yields a hit whose display name and MIME type equal the display
name and MIME type given to `stage`. -/
theorem C6_stage_then_peek (uploadedFile : GeminiFile) (st : ServerState)
    (base64Data mimeType fileName : String)
    (hb : base64Data ≠ "") (hm : mimeType ≠ "") (hf : fileName ≠ "")
    (hdn : uploadedFile.displayName = fileName)
    (hmt : uploadedFile.mimeType = mimeType) :
    (postUpload (some uploadedFile) st base64Data mimeType fileName).1 =
      .ok uploadedFile.name ∧
    mapFind (postUpload (some uploadedFile) st base64Data mimeType
        fileName).2.uploadedFilesMap uploadedFile.name = some uploadedFile ∧
    uploadedFile.displayName = fileName ∧ uploadedFile.mimeType = mimeType := by
  unfold postUpload
  simp [hb, hm, hf, mapFind_mapInsert_self, hdn, hmt]

/-- Witness for C6 at a concrete upload in the initial state. -/
theorem C6_witness :
    ("YWJj" ≠ "" ∧ "text/plain" ≠ "" ∧ "f.txt" ≠ "" ∧
      (⟨"files/t1", "f.txt", "text/plain"⟩ : GeminiFile).displayName = "f.txt" ∧
      (⟨"files/t1", "f.txt", "text/plain"⟩ : GeminiFile).mimeType = "text/plain") ∧
    ((postUpload (some ⟨"files/t1", "f.txt", "text/plain"⟩) initState "YWJj"
        "text/plain" "f.txt").1 = .ok "files/t1" ∧
      mapFind (postUpload (some ⟨"files/t1", "f.txt", "text/plain"⟩) initState
          "YWJj" "text/plain"
          "f.txt").2.uploadedFilesMap "files/t1" =
        some ⟨"files/t1", "f.txt", "text/plain"⟩ ∧
      (⟨"files/t1", "f.txt", "text/plain"⟩ : GeminiFile).displayName = "f.txt" ∧
      (⟨"files/t1", "f.txt", "text/plain"⟩ : GeminiFile).mimeType = "text/plain") :=
  ⟨by simp, C6_stage_then_peek ⟨"files/t1", "f.txt", "text/plain"⟩ initState
    "YWJj" "text/plain" "f.txt" (by simp) (by simp) (by simp) rfl rfl⟩

/-- C7 counterexample: in the `server.js` variant, calling consume
(`deleteGeminiFile`) on the token `"tokX"`, which is absent from the broker
map of the initial state, still issues a provider delete-by-handle call with
that token — refuting the claim that no provider delete call is issued for an
absent token. -/
theorem C7_counterexample :
    mapFind initState.uploadedFilesMap "tokX" = none ∧
    (deleteGeminiFile_server (fun _ => true) initState "tokX").provDeleteCalls =
      ["tokX"] := by
  exact ⟨rfl, rfl⟩

/-- C7 amended: consume on a token absent from the broker map raises nothing
(both variants are total) and leaves the map unchanged; in the Netlify
variants it performs no provider call at all (only the ghost consume record
changes), while in the `server.js` variant it still issues the provider
delete-by-handle call with the raw token. -/
theorem C7_consume_absent (provDelete : String → Bool) (st : ServerState)
    (t : String) (h : mapFind st.uploadedFilesMap t = none) :
    deleteGeminiFile_api provDelete st t =
      { st with consumeCalls := st.consumeCalls ++ [t] } ∧
    (deleteGeminiFile_server provDelete st t).uploadedFilesMap =
      st.uploadedFilesMap ∧
    (deleteGeminiFile_server provDelete st t).provDeleteCalls =
      st.provDeleteCalls ++ [t] := by
  refine ⟨?_, ?_, ?_⟩
  · unfold deleteGeminiFile_api
    simp [h]
  · unfold deleteGeminiFile_server
    by_cases hd : provDelete t
    · simp [hd, mapErase_of_find_none _ _ h]
    · simp [hd]
  · unfold deleteGeminiFile_server
    by_cases hd : provDelete t
    · simp [hd]
    · simp [hd]

/-- Witness for the amended C7 at the absent token `"tokY"` in the initial
state. -/
theorem C7_witness :
    mapFind initState.uploadedFilesMap "tokY" = none ∧
    (deleteGeminiFile_api (fun _ => false) initState "tokY" =
        { initState with consumeCalls := initState.consumeCalls ++ ["tokY"] } ∧
      (deleteGeminiFile_server (fun _ => false) initState "tokY").uploadedFilesMap =
        initState.uploadedFilesMap ∧
      (deleteGeminiFile_server (fun _ => false) initState "tokY").provDeleteCalls =
        initState.provDeleteCalls ++ ["tokY"]) :=
  ⟨rfl, C7_consume_absent (fun _ => false) initState "tokY" rfl⟩

/-- C1 counterexample: in the Netlify-variant consume, with the broker map
holding the token `"files/t1"`, a consume whose provider delete-by-handle call
raises (modelled by the all-failing `provDelete`) leaves the map entry in
place, so the subsequent peek yields a hit — refuting the claim that peek
after consume always misses regardless of delete failure (the
`delete uploadedFilesMap[fileToken]` line sits after the `await` inside the
`try`, so a thrown delete skips it). -/
theorem C1_counterexample :
    mapFind (deleteGeminiFile_api (fun _ => false)
        { initState with
            uploadedFilesMap :=
              [("files/t1", ⟨"files/t1", "doc.pdf", "application/pdf"⟩)] }
        "files/t1").uploadedFilesMap "files/t1" =
      some ⟨"files/t1", "doc.pdf", "application/pdf"⟩ := by
  exact rfl

/-- C1 amended: in BOTH consume variants, on a staged token, peek after
consume yields a miss exactly when the provider delete-by-handle call
succeeds (the Netlify variant deletes by the stored object's `name`, the
`server.js` variant by the raw token); when that call raises, the local map
entry is left in place and peek still yields a hit. -/
theorem C1_consume_then_peek (provDelete : String → Bool) (st : ServerState)
    (t : String) (f : GeminiFile) (hf : mapFind st.uploadedFilesMap t = some f)
    (hname : f.name ≠ "") :
    (provDelete f.name = true →
      mapFind (deleteGeminiFile_api provDelete st t).uploadedFilesMap t =
        none) ∧
    (provDelete f.name = false →
      mapFind (deleteGeminiFile_api provDelete st t).uploadedFilesMap t =
        some f) ∧
    (provDelete t = true →
      mapFind (deleteGeminiFile_server provDelete st t).uploadedFilesMap t =
        none) ∧
    (provDelete t = false →
      mapFind (deleteGeminiFile_server provDelete st t).uploadedFilesMap t =
        some f) := by
  refine ⟨?_, ?_, ?_, ?_⟩
  · intro hd
    unfold deleteGeminiFile_api
    simp [hf, hname, hd, mapFind_mapErase_self]
  · intro hd
    unfold deleteGeminiFile_api
    simp [hf, hname, hd]
  · intro hd
    unfold deleteGeminiFile_server
    simp [hd, mapFind_mapErase_self]
  · intro hd
    unfold deleteGeminiFile_server
    simp [hd, hf]

/-- Witness for the amended C1 at a staged token with a succeeding provider
delete, exercising both consume variants. -/
theorem C1_witness :
    mapFind ({ initState with
        uploadedFilesMap :=
          [("files/t2", ⟨"files/t2", "a.txt", "text/plain"⟩)] } :
          ServerState).uploadedFilesMap "files/t2" =
      some ⟨"files/t2", "a.txt", "text/plain"⟩ ∧
    GeminiFile.name ⟨"files/t2", "a.txt", "text/plain"⟩ ≠ "" ∧
    mapFind (deleteGeminiFile_api (fun _ => true)
        { initState with
            uploadedFilesMap :=
              [("files/t2", ⟨"files/t2", "a.txt", "text/plain"⟩)] }
        "files/t2").uploadedFilesMap "files/t2" = none ∧
    mapFind (deleteGeminiFile_server (fun _ => true)
        { initState with
            uploadedFilesMap :=
              [("files/t2", ⟨"files/t2", "a.txt", "text/plain"⟩)] }
        "files/t2").uploadedFilesMap "files/t2" = none :=
  ⟨rfl, by simp,
    (C1_consume_then_peek (fun _ => true)
      { initState with
          uploadedFilesMap :=
            [("files/t2", ⟨"files/t2", "a.txt", "text/plain"⟩)] }
      "files/t2" ⟨"files/t2", "a.txt", "text/plain"⟩ rfl (by simp)).1 rfl,
    (C1_consume_then_peek (fun _ => true)
      { initState with
          uploadedFilesMap :=
            [("files/t2", ⟨"files/t2", "a.txt", "text/plain"⟩)] }
      "files/t2" ⟨"files/t2", "a.txt", "text/plain"⟩ rfl (by simp)).2.2.1 rfl⟩

/-- C2 counterexample: a chat turn of the `server.js` variant with the
non-empty prompt `"hi"` and the supplied token `"T"`, which is absent from
the broker map, succeeds with ZERO consume calls — refuting the claim that a
supplied token is consumed exactly once, never zero times (the code guards
the consume call by map membership). -/
theorem C2_counterexample :
    (postChat_server (some "ok") (fun _ => true) initState "hi"
        (some "T")).1 = .ok "ok" ∧
    (postChat_server (some "ok") (fun _ => true) initState "hi"
        (some "T")).2.consumeCalls = [] := by
  exact ⟨rfl, rfl⟩

/-- C2 amended: in a chat turn of EITHER handler variant with a non-empty
prompt and a supplied (truthy) token, consume is called exactly once when the
token is present in the broker map — on the success path and on the
send-failure path alike — and zero times when the token is absent. -/
theorem C2_consume_exactly_once (sendResp : Option String)
    (provDelete : String → Bool) (st : ServerState) (prompt t : String)
    (hp : prompt ≠ "") (ht : t ≠ "") :
    (mapFind st.uploadedFilesMap t ≠ none →
      (postChat_server sendResp provDelete st prompt
          (some t)).2.consumeCalls = st.consumeCalls ++ [t] ∧
      (postChat_api sendResp provDelete st prompt
          (some t)).2.consumeCalls = st.consumeCalls ++ [t]) ∧
    (mapFind st.uploadedFilesMap t = none →
      (postChat_server sendResp provDelete st prompt
          (some t)).2.consumeCalls = st.consumeCalls ∧
      (postChat_api sendResp provDelete st prompt
          (some t)).2.consumeCalls = st.consumeCalls) := by
  constructor
  · intro hmem
    rcases hf : mapFind st.uploadedFilesMap t with _ | f
    · exact absurd hf hmem
    constructor
    · unfold postChat_server getChatSession deleteGeminiFile_server
      cases hcs : mapFind st.chatSessions SESSION_ID <;>
        cases sendResp <;>
          simp [hp, ht, hf, hcs, apply_ite ServerState.consumeCalls]
    · unfold postChat_api
      rcases hgs : getChatSession st SESSION_ID with ⟨c, st1⟩
      have hU : st1.uploadedFilesMap = st.uploadedFilesMap := by
        have h := (getChatSession_preserves st SESSION_ID).1
        rw [hgs] at h
        exact h
      have hC : st1.consumeCalls = st.consumeCalls := by
        have h := (getChatSession_preserves st SESSION_ID).2
        rw [hgs] at h
        exact h
      cases sendResp <;>
        simp [hp, ht, hf, hU, hC, consumeCalls_deleteGeminiFile_api]
  · intro hf
    constructor
    · unfold postChat_server getChatSession deleteGeminiFile_server
      cases hcs : mapFind st.chatSessions SESSION_ID <;>
        cases sendResp <;>
          simp [hp, ht, hf, hcs]
    · unfold postChat_api
      rcases hgs : getChatSession st SESSION_ID with ⟨c, st1⟩
      have hU : st1.uploadedFilesMap = st.uploadedFilesMap := by
        have h := (getChatSession_preserves st SESSION_ID).1
        rw [hgs] at h
        exact h
      have hC : st1.consumeCalls = st.consumeCalls := by
        have h := (getChatSession_preserves st SESSION_ID).2
        rw [hgs] at h
        exact h
      cases sendResp <;> simp [hp, ht, hf, hU, hC]

/-- Witness for the amended C2: one staged token consumed exactly once on a
successful turn of each handler variant. -/
theorem C2_witness :
    ("hi" ≠ "" ∧ "files/t3" ≠ "") ∧
    ((postChat_server (some "ok") (fun _ => true)
          { initState with
              uploadedFilesMap :=
                [("files/t3", ⟨"files/t3", "b.txt", "text/plain"⟩)] }
          "hi" (some "files/t3")).2.consumeCalls =
        ({ initState with
            uploadedFilesMap :=
              [("files/t3", ⟨"files/t3", "b.txt", "text/plain"⟩)] } :
            ServerState).consumeCalls ++ ["files/t3"] ∧
      (postChat_api (some "ok") (fun _ => true)
          { initState with
              uploadedFilesMap :=
                [("files/t3", ⟨"files/t3", "b.txt", "text/plain"⟩)] }
          "hi" (some "files/t3")).2.consumeCalls =
        ({ initState with
            uploadedFilesMap :=
              [("files/t3", ⟨"files/t3", "b.txt", "text/plain"⟩)] } :
            ServerState).consumeCalls ++ ["files/t3"]) :=
  ⟨⟨by simp, by simp⟩,
    (C2_consume_exactly_once (some "ok") (fun _ => true)
      { initState with
          uploadedFilesMap :=
            [("files/t3", ⟨"files/t3", "b.txt", "text/plain"⟩)] }
      "hi" "files/t3" (by simp) (by simp)).1 (by decide)⟩

/-- C3 counterexample: a chat request of the Netlify Express variant with an
empty prompt is rejected with the validation error, but the Conversation
Registry has already been touched: one provider context-creation call
occurred (the handler calls `getChatSession(SESSION_ID)` before validating
the prompt) — refuting the claim that no `get_or_create` occurs for such a
request. -/
theorem C3_counterexample :
    (postChat_api (some "ok") (fun _ => true) initState "" none).1 =
      .badRequest "Prompt is required." ∧
    (postChat_api (some "ok") (fun _ => true) initState "" none).2.createCalls =
      1 := by
  exact ⟨rfl, rfl⟩

/-- C3 amended: a chat request with an empty prompt always fails with a
validation error before any send-message call and without touching the
Attachment Broker or calling consume; in the `server.js` variant the state is
entirely untouched (registry included), but in the Netlify variants the
conversation context is resolved first, so the registry may be mutated and a
provider context-creation call may occur before the validation failure. -/
theorem C3_empty_prompt_validation (sendResp : Option String)
    (provDelete : String → Bool) (st : ServerState)
    (fileToken : Option String) :
    postChat_server sendResp provDelete st "" fileToken =
      (.badRequest "Prompt is missing.", st) ∧
    (postChat_api sendResp provDelete st "" fileToken).1 =
      .badRequest "Prompt is required." ∧
    (postChat_api sendResp provDelete st "" fileToken).2.sendCalls =
      st.sendCalls ∧
    (postChat_api sendResp provDelete st "" fileToken).2.consumeCalls =
      st.consumeCalls ∧
    (postChat_api sendResp provDelete st "" fileToken).2.uploadedFilesMap =
      st.uploadedFilesMap := by
  refine ⟨by unfold postChat_server; simp, ?_, ?_, ?_, ?_⟩ <;>
    · unfold postChat_api getChatSession
      cases hcs : mapFind st.chatSessions SESSION_ID <;> simp [hcs]

/-- C4 counterexample: with the API key absent, the Netlify Express variant
(`Netlify/functions/api.js`) still serves a chat request — the missing key is
only logged, `process.exit` having been removed — and a provider
context-creation call is attempted, the turn failing as a generic provider
error rather than a misconfiguration failure.  This refutes the claim that no
provider call is ever attempted by any endpoint when the key is absent. -/
theorem C4_counterexample :
    strTruthy none = false ∧
    (apiModuleChat none none (fun _ => true) initState "hello" none).map
        (fun p => p.2.createCalls) = some 1 ∧
    (apiModuleChat none none (fun _ => true) initState "hello" none).map
        (fun p => p.1) =
      some (.serverError "Gemini API Error during chat") := by
  exact ⟨rfl, rfl, rfl⟩

/-- C4 amended: when the API key is absent, the `server.js` variant exits at
startup so no chat request is ever served (hence no provider call), and the
standalone Netlify handler answers every request with a fixed
misconfiguration failure without touching state or the provider; the Netlify
Express variant, however, still serves requests and attempts provider calls,
surfacing the condition only as a generic provider error. -/
theorem C4_missing_key (apiKey : Option String) (sendResp : Option String)
    (provDelete : String → Bool) (st : ServerState) (prompt : String)
    (fileToken : Option String) (h : strTruthy apiKey = false) :
    serverModuleChat apiKey sendResp provDelete st prompt fileToken = none ∧
    part000ModuleChat apiKey sendResp provDelete st prompt fileToken =
      some (.serverError
              "Gemini API Key missing in Netlify Environment Variables.",
            st) := by
  unfold serverModuleChat part000ModuleChat
  simp [h]

/-- Witness for the amended C4 with the key entirely unset. -/
theorem C4_witness :
    strTruthy none = false ∧
    (serverModuleChat none (some "ok") (fun _ => true) initState "hello"
        none = none ∧
      part000ModuleChat none (some "ok") (fun _ => true) initState "hello"
          none =
        some (.serverError
                "Gemini API Key missing in Netlify Environment Variables.",
              initState)) :=
  ⟨rfl, C4_missing_key none (some "ok") (fun _ => true) initState "hello"
    none rfl⟩

/-- C8: in the Netlify variants, a chat turn with a non-empty prompt and a
supplied (truthy) token absent from the broker map silently ignores the
token: the message sent to the provider is exactly the prompt text alone, no
consume call happens, and the turn returns the provider's reply as a success
whenever the send-message call succeeds. -/
theorem C8_stale_token_ignored (provDelete : String → Bool) (st : ServerState)
    (prompt t reply : String) (hp : prompt ≠ "") (ht : t ≠ "")
    (habs : mapFind st.uploadedFilesMap t = none) :
    (postChat_api (some reply) provDelete st prompt (some t)).1 =
      .ok reply ∧
    (postChat_api (some reply) provDelete st prompt (some t)).2.sendCalls =
      st.sendCalls ++ [[ContentPart.text prompt]] ∧
    (postChat_api (some reply) provDelete st prompt (some t)).2.consumeCalls =
      st.consumeCalls := by
  unfold postChat_api getChatSession
  cases hcs : mapFind st.chatSessions SESSION_ID <;>
    simp [hp, ht, habs, hcs, chatContents]

/-- Witness for C8 at a stale token in the initial state. -/
theorem C8_witness :
    ("hi" ≠ "" ∧ "bad-token" ≠ "" ∧
      mapFind initState.uploadedFilesMap "bad-token" = none) ∧
    ((postChat_api (some "ok") (fun _ => true) initState "hi"
          (some "bad-token")).1 = .ok "ok" ∧
      (postChat_api (some "ok") (fun _ => true) initState "hi"
          (some "bad-token")).2.sendCalls =
        initState.sendCalls ++ [[ContentPart.text "hi"]] ∧
      (postChat_api (some "ok") (fun _ => true) initState "hi"
          (some "bad-token")).2.consumeCalls = initState.consumeCalls) :=
  ⟨⟨by simp, by simp, rfl⟩,
    C8_stale_token_ignored (fun _ => true) initState "hi" "bad-token" "ok"
      (by simp) (by simp) rfl⟩

/-- C9: in the `server.js` variant, when the send-message step succeeds on a
turn with a staged token, the turn returns the reply text as a success for
EVERY outcome of the provider delete-by-handle call made during cleanup —
consume catches all provider failures internally (it is total in this
embedding) and never raises to the chat-turn caller. -/
theorem C9_cleanup_failure_not_surfaced (provDelete : String → Bool)
    (st : ServerState) (prompt t reply : String) (f : GeminiFile)
    (hp : prompt ≠ "") (ht : t ≠ "")
    (hf : mapFind st.uploadedFilesMap t = some f) :
    (postChat_server (some reply) provDelete st prompt (some t)).1 =
      .ok reply := by
  unfold postChat_server getChatSession deleteGeminiFile_server
  cases hcs : mapFind st.chatSessions SESSION_ID <;>
    simp [hp, ht, hf, hcs]

/-- Witness for C9: the reply is returned even though the provider delete
call fails (the all-failing `provDelete`). -/
theorem C9_witness :
    ("hi" ≠ "" ∧ "files/t4" ≠ "" ∧
      mapFind ({ initState with
          uploadedFilesMap :=
            [("files/t4", ⟨"files/t4", "c.txt", "text/plain"⟩)] } :
            ServerState).uploadedFilesMap "files/t4" =
        some ⟨"files/t4", "c.txt", "text/plain"⟩) ∧
    (postChat_server (some "ok") (fun _ => false)
        { initState with
            uploadedFilesMap :=
              [("files/t4", ⟨"files/t4", "c.txt", "text/plain"⟩)] }
        "hi" (some "files/t4")).1 = .ok "ok" :=
  ⟨⟨by simp, by simp, rfl⟩,
    C9_cleanup_failure_not_surfaced (fun _ => false)
      { initState with
          uploadedFilesMap :=
            [("files/t4", ⟨"files/t4", "c.txt", "text/plain"⟩)] }
      "hi" "files/t4" "ok" ⟨"files/t4", "c.txt", "text/plain"⟩
      (by simp) (by simp) rfl⟩

/-! ## Registry lemmas for the reachable-state invariant -/

theorem chatSessions_deleteGeminiFile_server (d : String → Bool)
    (st : ServerState) (t : String) :
    (deleteGeminiFile_server d st t).chatSessions = st.chatSessions := by
  unfold deleteGeminiFile_server
  by_cases h : d t <;> simp [h]

theorem chatSessions_deleteGeminiFile_api (d : String → Bool)
    (st : ServerState) (t : String) :
    (deleteGeminiFile_api d st t).chatSessions = st.chatSessions := by
  unfold deleteGeminiFile_api
  rcases h : mapFind st.uploadedFilesMap t with _ | f
  · simp [h]
  · by_cases hn : f.name = ""
    · simp [h, hn]
    · by_cases hd : d f.name <;> simp [h, hn, hd]

theorem chatSessions_postUpload (r : Option GeminiFile) (st : ServerState)
    (b m f : String) :
    (postUpload r st b m f).2.chatSessions = st.chatSessions := by
  unfold postUpload
  by_cases h : b = "" ∨ m = "" ∨ f = ""
  · simp [h]
  · cases r <;> simp [h]

theorem registryOK_getChatSession (st : ServerState)
    (h : registryKeysDefault st) :
    registryKeysDefault (getChatSession st SESSION_ID).2 := by
  unfold getChatSession
  rcases hcs : mapFind st.chatSessions SESSION_ID with _ | c
  · simp only [hcs]
    right
    refine ⟨⟨st.nextCtxId, "gemini-2.5-flash", SYSTEM_PROMPT⟩, ?_⟩
    rcases h with h0 | ⟨c0, h0⟩ <;> simp [h0, mapInsert]
  · simp only [hcs]
    exact h

theorem chatSessions_postChat_server (s : Option String) (d : String → Bool)
    (st : ServerState) (p : String) (t : Option String) :
    (postChat_server s d st p t).2.chatSessions = st.chatSessions ∨
    (postChat_server s d st p t).2.chatSessions =
      (getChatSession st SESSION_ID).2.chatSessions := by
  by_cases hp : p = ""
  · left
    unfold postChat_server
    simp [hp]
  · right
    unfold postChat_server
    rw [if_neg hp]
    rcases hgs : getChatSession st SESSION_ID with ⟨c, st1⟩
    rcases t with _ | tk
    · cases s <;> simp
    · by_cases htk : tk = ""
      · cases s <;> simp [htk]
      · rcases hmf : mapFind st1.uploadedFilesMap tk with _ | f
        · cases s <;> simp [htk, hmf]
        · cases s <;>
            simp [htk, hmf, chatSessions_deleteGeminiFile_server]

theorem chatSessions_postChat_api (s : Option String) (d : String → Bool)
    (st : ServerState) (p : String) (t : Option String) :
    (postChat_api s d st p t).2.chatSessions =
      (getChatSession st SESSION_ID).2.chatSessions := by
  unfold postChat_api
  rcases hgs : getChatSession st SESSION_ID with ⟨c, st1⟩
  by_cases hp : p = ""
  · simp [hp]
  · simp only [if_neg hp]
    rcases t with _ | tk
    · cases s <;> simp
    · by_cases htk : tk = ""
      · cases s <;> simp [htk]
      · rcases hmf : mapFind st1.uploadedFilesMap tk with _ | f
        · cases s <;> simp [htk, hmf]
        · cases s <;> simp [htk, hmf, chatSessions_deleteGeminiFile_api]

theorem registryOK_applyOp (st : ServerState) (op : Op)
    (h : registryKeysDefault st) : registryKeysDefault (applyOp st op) := by
  cases op with
  | upload r b m f =>
      unfold applyOp registryKeysDefault at *
      rw [chatSessions_postUpload]
      exact h
  | chatServer s d p t =>
      unfold applyOp
      rcases chatSessions_postChat_server s d st p t with heq | heq
      · unfold registryKeysDefault at *
        rw [heq]
        exact h
      · have hg := registryOK_getChatSession st h
        unfold registryKeysDefault at *
        rw [heq]
        exact hg
  | chatApi s d p t =>
      have hg := registryOK_getChatSession st h
      unfold applyOp
      unfold registryKeysDefault at *
      rw [chatSessions_postChat_api]
      exact hg

theorem registryOK_run (ops : List Op) (st : ServerState)
    (h : registryKeysDefault st) : registryKeysDefault (run st ops) := by
  induction ops generalizing st with
  | nil => exact h
  | cons op ops ih => exact ih (applyOp st op) (registryOK_applyOp st op h)

/-- C10: in every state reachable from the initial state through the public
upload and chat operations — none of which reads a session identifier from
the request (the chat handlers always resolve the context under the fixed
constant `SESSION_ID = "default-it-user"`) — the Conversation Registry map
contains at most one entry, and every entry it contains is keyed by that
constant, so all chat turns share one conversation context. -/
theorem C10_single_global_session (ops : List Op) :
    (run initState ops).chatSessions.length ≤ 1 ∧
    ∀ p ∈ (run initState ops).chatSessions, p.1 = SESSION_ID := by
  have h := registryOK_run ops initState (Or.inl rfl)
  rcases h with h | ⟨c, h⟩ <;> simp [h]

end SuryaAI
